import Mathlib

/-!
Verification of the `sway_command` builder crate: a shallow embedding of the
command-assembly engine (criteria, sub-commands, targeted command units and
command lists with their cached string renderings) together with theorems
settling the specification claims.

Rendering in the source is Rust `Display` (via `derive_more` format strings);
each Rust type gets a Lean inductive/structure and a `render` function that is
a direct transcription of its display attribute.  Machine integers (`u32`,
`i32`, `u8`) are modelled as `Nat`/`Int`: no arithmetic is performed on them,
they are only printed.  The `assert_eq!(self.rep.pop(), Some(']'))` calls in
the two criterion-append patch paths are fallible, so the corresponding
operations return `Option`.
-/

namespace SwayCommand

/-- Join a list of strings with a separator: no trailing separator, empty
result for the empty list (the specification's "comma-join" / "semicolon-join"
/ "space-join"). `tailJoin` prefixes every element with the separator. -/
def tailJoin (sep : String) : List String → String
  | [] => ""
  | s :: rest => sep ++ s ++ tailJoin sep rest

/-- Separator-join of a list of strings, see `tailJoin`. -/
def joinSep (sep : String) : List String → String
  | [] => ""
  | s :: rest => s ++ tailJoin sep rest

/-- Model of `self.rep.pop()` followed by `assert_eq!(…, Some(']'))`: returns
the string with its final `']'` removed, or `none` when the assertion would
fail (last character missing or different). -/
def popRBracket (s : String) : Option String :=
  match s.data.getLast? with
  | some c => if c = ']' then some (String.mk s.data.dropLast) else none
  | none => none

/-- Rust `{value:X}` formatting of an unsigned integer: uppercase hexadecimal,
no zero padding (at least one digit). -/
def hexUpper (n : Nat) : String :=
  String.mk ((Nat.toDigits 16 n).map Char.toUpper)

/-- Helper `when` from `src/src/commands/mod.rs`: the given text if the
condition holds, empty otherwise. -/
def when (condition : Bool) (text : String) : String :=
  if condition then text else ""

/-- Helper `then_or_empty` from `src/src/commands/mod.rs`. -/
def thenOrEmpty {α : Type} (value : Option α) (f : α → String) : String :=
  match value with
  | some v => f v
  | none => ""

/-- Helper `to_string_or_empty` from `src/src/commands/mod.rs`; the `ToString`
bound is passed explicitly as a render function. -/
def toStringOrEmpty {α : Type} (f : α → String) (value : Option α) : String :=
  match value with
  | some v => f v
  | none => ""

/-! ## Grammar model: `src/src/criteria.rs` -/

/-- `OrFocused<T>`: a literal value or the focused-target sentinel. -/
inductive OrFocused (α : Type) : Type
  | focused : OrFocused α
  | value (a : α) : OrFocused α

/-- Display of `OrFocused<T>`: `__focused__` or the value's own rendering. -/
def OrFocused.render {α : Type} (f : α → String) : OrFocused α → String
  | .focused => "__focused__"
  | .value a => f a

/-- `Urgent` criterion values. -/
inductive Urgent : Type
  | first | last | latest | newest | oldest | recent

/-- Display of `Urgent`. -/
def Urgent.render : Urgent → String
  | .first => "first"
  | .last => "last"
  | .latest => "latest"
  | .newest => "newest"
  | .oldest => "oldest"
  | .recent => "recent"

/-- `WindowType` criterion values. -/
inductive WindowType : Type
  | normal | dialog | utility | toolbar | splash | menu
  | dropdownMenu | popupMenu | tooltip | notification

/-- Display of `WindowType`. -/
def WindowType.render : WindowType → String
  | .normal => "normal"
  | .dialog => "dialog"
  | .utility => "utility"
  | .toolbar => "toolbar"
  | .splash => "splash"
  | .menu => "menu"
  | .dropdownMenu => "dropdown_menu"
  | .popupMenu => "popup_menu"
  | .tooltip => "tooltip"
  | .notification => "notification"

/-- The `Criteria` enum (`class`/`instance` are Lean keywords, hence the
trailing underscores on those constructor names). -/
inductive Criteria : Type
  | appId (v : OrFocused String)
  | class_ (v : OrFocused String)
  | conId (v : OrFocused Nat)
  | conMark (v : String)
  | floating
  | id (v : Nat)
  | instance_ (v : OrFocused String)
  | pid (v : Nat)
  | shell (v : OrFocused String)
  | tiling
  | title (v : OrFocused String)
  | urgent (v : Urgent)
  | windowRole (v : OrFocused String)
  | windowType (v : WindowType)
  | workspace (v : OrFocused String)

/-- Display of `Criteria`, transcribing each `#[display(fmt = …)]` attribute
(note the source really capitalises `Pid`). -/
def Criteria.render : Criteria → String
  | .appId v => "app_id=\"" ++ v.render (fun s => s) ++ "\""
  | .class_ v => "class=\"" ++ v.render (fun s => s) ++ "\""
  | .conId v => "con_id=\"" ++ v.render toString ++ "\""
  | .conMark v => "con_mark=\"" ++ v ++ "\""
  | .floating => "floating"
  | .id v => "id=\"" ++ toString v ++ "\""
  | .instance_ v => "instance=\"" ++ v.render (fun s => s) ++ "\""
  | .pid v => "Pid=\"" ++ toString v ++ "\""
  | .shell v => "shell=\"" ++ v.render (fun s => s) ++ "\""
  | .tiling => "tiling"
  | .title v => "title=\"" ++ v.render (fun s => s) ++ "\""
  | .urgent v => "urgent=\"" ++ v.render ++ "\""
  | .windowRole v => "window_role=\"" ++ v.render (fun s => s) ++ "\""
  | .windowType v => "window_type=\"" ++ v.render ++ "\""
  | .workspace v => "workspace=\"" ++ v.render (fun s => s) ++ "\""

/-! ## Grammar model: `src/src/commands/mod.rs` -/

/-- `WorkspaceName`: a plain name or `number:name`. -/
inductive WorkspaceName : Type
  | simple (s : String)
  | withNumber (n : Nat) (s : String)

/-- Display of `WorkspaceName` (`Simple` has no attribute and forwards to the
field; `WithNumber` is `{_0}:{_1}`). -/
def WorkspaceName.render : WorkspaceName → String
  | .simple s => s
  | .withNumber n s => toString n ++ ":" ++ s

/-- The `Workspace` enum. -/
inductive Workspace : Type
  | name (v : WorkspaceName)
  | number (v : WorkspaceName)
  | prev
  | next
  | current
  | prevOnOutput
  | nextOnOutput
  | backAndForth

/-- Display of `Workspace`.  The source attributes for `Name` and `Number` are
`fmt = "_0"` and `fmt = "number _0"`: plain format strings without braces, so
they print the literal text `_0` and never the stored workspace name. -/
def Workspace.render : Workspace → String
  | .name _ => "_0"
  | .number _ => "number _0"
  | .prev => "prev"
  | .next => "next"
  | .current => "current"
  | .prevOnOutput => "prev_on_output"
  | .nextOnOutput => "next_on_output"
  | .backAndForth => "back_and_forth"

/-- The `Output` enum. -/
inductive Output : Type
  | up | right | down | left | current
  | name (s : String)

/-- Display of `Output`. -/
def Output.render : Output → String
  | .up => "up"
  | .right => "right"
  | .down => "down"
  | .left => "left"
  | .current => "current"
  | .name s => s

/-- The `GapsDirection` enum. -/
inductive GapsDirection : Type
  | inner | outer | horizontal | vertical | top | right | bottom | left

/-- Display of `GapsDirection`. -/
def GapsDirection.render : GapsDirection → String
  | .inner => "inner"
  | .outer => "outer"
  | .horizontal => "horizontal"
  | .vertical => "vertical"
  | .top => "top"
  | .right => "right"
  | .bottom => "bottom"
  | .left => "left"

/-- The `EnDisable` enum. -/
inductive EnDisable : Type
  | enable | disable

/-- Display of `EnDisable`. -/
def EnDisable.render : EnDisable → String
  | .enable => "enable"
  | .disable => "disable"

/-- The `EnDisTog` enum. -/
inductive EnDisTog : Type
  | enable | disable | toggle

/-- Display of `EnDisTog`. -/
def EnDisTog.render : EnDisTog → String
  | .enable => "enable"
  | .disable => "disable"
  | .toggle => "toggle"

/-! ## Grammar model: `src/src/commands/runtime.rs` -/

/-- The `Length` argument type. -/
inductive Length : Type
  | px (n : Nat)
  | ppt (n : Nat)
  | default (n : Nat)

/-- Display of `Length`. -/
def Length.render : Length → String
  | .px n => toString n ++ " px"
  | .ppt n => toString n ++ " ppt"
  | .default n => toString n

/-- The `Border` sub-command argument. -/
inductive Border : Type
  | none
  | normal (n : Option Nat)
  | clientSideDecorations
  | pixel (n : Option Nat)
  | toggle

/-- Display of `Border`; the optional thickness renders as the empty string
when absent, with the space before it still emitted. -/
def Border.render : Border → String
  | .none => "none"
  | .normal n => "normal " ++ toStringOrEmpty toString n
  | .clientSideDecorations => "csd"
  | .pixel n => "pixel " ++ toStringOrEmpty toString n
  | .toggle => "toggle"

/-- The `FocusOutput` argument. -/
inductive FocusOutput : Type
  | up | right | down | left
  | name (s : String)

/-- Display of `FocusOutput`. -/
def FocusOutput.render : FocusOutput → String
  | .up => "up"
  | .right => "right"
  | .down => "down"
  | .left => "left"
  | .name s => s

/-- The `Focus` sub-command argument. -/
inductive Focus : Type
  | this
  | up | right | down | left
  | prev (b : Bool)
  | next (b : Bool)
  | child
  | parent
  | output (o : FocusOutput)
  | tiling
  | floating
  | modeToggle

/-- Display of `Focus` (`Prev`/`Next` append `sibling` when the flag is
*false*, mirroring `when(!_0, "sibling")`). -/
def Focus.render : Focus → String
  | .this => ""
  | .up => "up"
  | .right => "right"
  | .down => "down"
  | .left => "left"
  | .prev b => "prev " ++ when (!b) "sibling"
  | .next b => "next " ++ when (!b) "sibling"
  | .child => "child"
  | .parent => "parent"
  | .output o => "output " ++ o.render
  | .tiling => "tiling"
  | .floating => "floating"
  | .modeToggle => "mode_toggle"

/-- The `FullscreenGlobal` argument. -/
inductive FullscreenGlobal : Type
  | global
  | no

/-- Display of `FullscreenGlobal`. -/
def FullscreenGlobal.render : FullscreenGlobal → String
  | .global => "global"
  | .no => ""

/-- The `GapsWorkspaces` argument. -/
inductive GapsWorkspaces : Type
  | all | current

/-- Display of `GapsWorkspaces`. -/
def GapsWorkspaces.render : GapsWorkspaces → String
  | .all => "all"
  | .current => "current"

/-- The `GapsModification` argument. -/
inductive GapsModification : Type
  | set | plus | minus | toggle

/-- Display of `GapsModification`. -/
def GapsModification.render : GapsModification → String
  | .set => "set"
  | .plus => "plus"
  | .minus => "minus"
  | .toggle => "toggle"

/-- The `InhibitIdle` argument. -/
inductive InhibitIdle : Type
  | focus | fullscreen | open | none | visible

/-- Display of `InhibitIdle`. -/
def InhibitIdle.render : InhibitIdle → String
  | .focus => "focus"
  | .fullscreen => "fullscreen"
  | .open => "open"
  | .none => "none"
  | .visible => "visible"

/-- The `LayoutToggleOptions` argument. -/
inductive LayoutToggleOptions : Type
  | split | tabbed | stacking | splitv | splith

/-- Display of `LayoutToggleOptions`. -/
def LayoutToggleOptions.render : LayoutToggleOptions → String
  | .split => "split"
  | .tabbed => "tabbed"
  | .stacking => "stacking"
  | .splitv => "splitv"
  | .splith => "splith"

/-- The `LayoutToggle` argument. -/
inductive LayoutToggle : Type
  | none
  | split
  | all
  | options (l : List LayoutToggleOptions)

/-- Display of `LayoutToggle` (`None` has no display attribute and renders as
its variant name; `Options` joins its element renders with single spaces). -/
def LayoutToggle.render : LayoutToggle → String
  | .none => "None"
  | .split => "split"
  | .all => "all"
  | .options l => joinSep " " (l.map LayoutToggleOptions.render)

/-- The `Layout` sub-command argument. -/
inductive Layout : Type
  | default | splith | splitv | stacking | tabbed
  | toggle (t : LayoutToggle)

/-- Display of `Layout`. -/
def Layout.render : Layout → String
  | .default => "default"
  | .splith => "splith"
  | .splitv => "splitv"
  | .stacking => "stacking"
  | .tabbed => "tabbed"
  | .toggle t => "toggle " ++ t.render

/-- The `MaxRenderTime` argument. -/
inductive MaxRenderTime : Type
  | off
  | msec (n : Nat)

/-- Display of `MaxRenderTime` (`Msec` forwards to its numeric field). -/
def MaxRenderTime.render : MaxRenderTime → String
  | .off => "off"
  | .msec n => toString n

/-- The `Move` sub-command argument. -/
inductive Move : Type
  | left (n : Int)
  | right (n : Int)
  | up (n : Int)
  | down (n : Int)
  | position (a b : Length)
  | absolutePosition (x y : Nat)
  | positionCenter
  | absolutePositionCenter
  | positionCursor
  | mark (s : String)
  | workspace (w : Workspace)
  | workspaceNoAutoBackAndForth (w : Workspace)
  | scratchpad
  | containerToOutput (o : Output)
  | workspaceToOutput (o : Output)

/-- Display of `Move`.  `Position` and `AbsolutePosition` have the attribute
`{_0} … {_0}`, printing the *first* argument twice and never the second;
`Mark` has attribute `container to mark` which never prints the mark. -/
def Move.render : Move → String
  | .left n => "left " ++ toString n ++ " px"
  | .right n => "right " ++ toString n ++ " px"
  | .up n => "up " ++ toString n ++ " px"
  | .down n => "down " ++ toString n ++ " px"
  | .position a _ => "position " ++ a.render ++ " " ++ a.render
  | .absolutePosition x _ => "absolute position " ++ toString x ++ " px " ++ toString x ++ " px"
  | .positionCenter => "position center"
  | .absolutePositionCenter => "absolute position center"
  | .positionCursor => "position cursor"
  | .mark _ => "container to mark"
  | .workspace w => "container to workspace " ++ w.render
  | .workspaceNoAutoBackAndForth w => "--no-auto-back-and-forth container to workspace " ++ w.render
  | .scratchpad => "container to scratchpad"
  | .containerToOutput o => "container to output " ++ o.render
  | .workspaceToOutput o => "workspace to output " ++ o.render

/-- The `Resize` sub-command argument. -/
inductive Resize : Type
  | growWidth (l : Length)
  | shrinkWidth (l : Length)
  | growHeight (l : Length)
  | shrinkHeight (l : Length)
  | setHeight (l : Length)
  | setWidth (l : Length)
  | set (a b : Length)

/-- Display of `Resize` (`Set` prints its first length twice: `{_0} … {_0}`). -/
def Resize.render : Resize → String
  | .growWidth l => "grow width " ++ l.render
  | .shrinkWidth l => "shrink width " ++ l.render
  | .growHeight l => "grow height " ++ l.render
  | .shrinkHeight l => "shrink height " ++ l.render
  | .setHeight l => "set height " ++ l.render
  | .setWidth l => "set width " ++ l.render
  | .set a _ => "set width " ++ a.render ++ " height " ++ a.render

/-- The `Split` sub-command argument. -/
inductive Split : Type
  | vertical | horizontal | none | toggle

/-- Display of `Split`: no variant carries a display attribute, so each unit
variant renders as its variant name. -/
def Split.render : Split → String
  | .vertical => "Vertical"
  | .horizontal => "Horizontal"
  | .none => "None"
  | .toggle => "Toggle"

/-- The `Swap` sub-command argument. -/
inductive Swap : Type
  | id (s : String)
  | conId (s : String)
  | mark (s : String)

/-- Display of `Swap`. -/
def Swap.render : Swap → String
  | .id s => "id " ++ s
  | .conId s => "con_id " ++ s
  | .mark s => "mark " ++ s

/-- The `SubCommand` enum: one protocol operation applied to a selected
target. -/
inductive SubCommand : Type
  | border (b : Border)
  | exit
  | floating (e : EnDisTog)
  | focus (f : Focus)
  | fullscreen (e : EnDisTog) (g : FullscreenGlobal)
  | gaps (d : GapsDirection) (w : GapsWorkspaces) (m : GapsModification) (n : Nat)
  | inhibitIdle (i : InhibitIdle)
  | layout (l : Layout)
  | maxRenderTime (m : MaxRenderTime)
  | move (m : Move)
  | nop (comment : Option String)
  | reload
  | renameWorkspace (old new : String)
  | renameFocusedWorkspace (new : String)
  | resize (r : Resize)
  | scratchpadShow
  | shortcutsInhibitor (e : EnDisable)
  | split (s : Split)
  | sticky (e : EnDisTog)
  | swap (s : Swap)
  | titleFormat (s : String)

/-- Display of `SubCommand`, transcribing each attribute exactly: note that
`Fullscreen` prints keyword `focus`, `Gaps` emits a comma before its number,
`RenameWorkspace` is `rename workspace {_0} to {_0}` (old name twice),
`Resize` is the bare word `resize` (argument unused), and `Swap` prints
keyword `sticky`. -/
def SubCommand.render : SubCommand → String
  | .border b => "border " ++ b.render
  | .exit => "exit"
  | .floating e => "floating " ++ e.render
  | .focus f => "focus " ++ f.render
  | .fullscreen e g => "focus " ++ e.render ++ " " ++ g.render
  | .gaps d w m n => "gaps " ++ d.render ++ " " ++ w.render ++ " " ++ m.render ++ ", " ++ toString n
  | .inhibitIdle i => "inhibit_idle " ++ i.render
  | .layout l => "layout " ++ l.render
  | .maxRenderTime m => "max_render_time " ++ m.render
  | .move m => "move " ++ m.render
  | .nop comment => "nop " ++ comment.getD ""
  | .reload => "reload"
  | .renameWorkspace old _ => "rename workspace " ++ old ++ " to " ++ old
  | .renameFocusedWorkspace new => "rename workspace to " ++ new
  | .resize _ => "resize"
  | .scratchpadShow => "scratchpad show"
  | .shortcutsInhibitor e => "shortcuts_inhibitor " ++ e.render
  | .split s => "split " ++ s.render
  | .sticky e => "sticky " ++ e.render
  | .swap s => "sticky " ++ s.render
  | .titleFormat s => "title_format " ++ s

/-! ## Grammar model: `src/src/commands/standalone.rs` (the parts the claims
are about: key-binding modifier flags and colors) -/

/-- The `Modifiers` flag aggregate. -/
structure Modifiers : Type where
  mod1 : Bool
  mod2 : Bool
  mod3 : Bool
  mod4 : Bool
  shift : Bool
  control : Bool

/-- Display of `Modifiers`: ordered concatenation of `when(flag, token)` for
the six flags. -/
def Modifiers.render (m : Modifiers) : String :=
  when m.mod1 "Mod1+" ++ when m.mod2 "Mod2+" ++ when m.mod3 "Mod3+"
    ++ when m.mod4 "Mod4+" ++ when m.shift "Shift+" ++ when m.control "Control+"

/-- `Default` for `Modifiers`: all flags unset. -/
def Modifiers.default : Modifiers :=
  ⟨false, false, false, false, false, false⟩

/-- The `Color` composite; `u8` components modelled as `Nat` (they are only
printed, never computed with). -/
structure Color : Type where
  red : Nat
  green : Nat
  blue : Nat
  alpha : Option Nat

/-- Display of `Color`: `#{red:X}{green:X}{blue:X}` plus the alpha byte when
present; `{:X}` is unpadded uppercase hex (see `hexUpper`). -/
def Color.render (c : Color) : String :=
  "#" ++ hexUpper c.red ++ hexUpper c.green ++ hexUpper c.blue
    ++ thenOrEmpty c.alpha (fun a => hexUpper a)

/-! ## The incremental builder: `src/src/criteria.rs` and `src/src/lib.rs` -/

/-- `CriteriaList`: the criteria group with its cached bracketed rendering.
The Rust field `criteria` keeps its name; the Rust *method* `criteria` is
`addCriteria` here because a Lean structure cannot have a field and a
definition of the same name. -/
structure CriteriaList : Type where
  rep : String
  criteria : List Criteria

/-- `CriteriaList::new`: created with exactly one criterion, cached string
`format!("[{criteria}]")`. -/
def CriteriaList.new (c : Criteria) : CriteriaList :=
  { rep := "[" ++ c.render ++ "]", criteria := [c] }

/-- `CriteriaList::criteria`: asserts that the cached string ends in `']'`,
pops it, then does `push_str(" {criteria}]")`.  That argument is a plain
string literal (not a `format!` call), so the *literal text* ` {criteria}]`
is appended — the new criterion's render never reaches the cached string. -/
def CriteriaList.addCriteria (l : CriteriaList) (c : Criteria) : Option CriteriaList :=
  (popRBracket l.rep).map fun r =>
    { rep := r ++ " {criteria}]", criteria := l.criteria ++ [c] }

/-- `CriteriaCommand`: optional criteria group, ordered sub-commands, cached
rendering (field names as in the source; methods `command`/`criteria` become
`command`/`addCriteria`). -/
structure CriteriaCommand : Type where
  rep : String
  criteria : Option CriteriaList
  commands : List SubCommand

/-- `CriteriaCommand::default()`: empty cached string, no criteria, no
sub-commands. -/
def CriteriaCommand.default : CriteriaCommand :=
  { rep := "", criteria := none, commands := [] }

/-- `From<SubCommand> for CriteriaCommand`. -/
def CriteriaCommand.ofSubCommand (c : SubCommand) : CriteriaCommand :=
  { rep := c.render, criteria := none, commands := [c] }

/-- `CriteriaCommand::command`: push `','` if a sub-command is already
present, then push the new sub-command's render, then record it. -/
def CriteriaCommand.command (s : CriteriaCommand) (c : SubCommand) : CriteriaCommand :=
  { rep := (if s.commands.isEmpty then s.rep else s.rep ++ ",") ++ c.render
    criteria := s.criteria
    commands := s.commands ++ [c] }

/-- Re-appending of the accumulated sub-commands in the rebuild path of
`CriteriaCommand::criteria`: first render without separator, the rest
prefixed by `','`. -/
def appendCmds (base : String) : List SubCommand → String
  | [] => base
  | c :: rest => rest.foldl (fun acc cc => acc ++ "," ++ cc.render) (base ++ c.render)

/-- `CriteriaCommand::criteria`.  Patch path (no sub-commands yet, group
exists): append to the group, pop the trailing `']'` of the cached string and
`push_str(" {criteria}]")` — again the literal text, see
`CriteriaList.addCriteria`.  Otherwise: extend or create the group, reset the
cached string to the group's render and re-append every sub-command. -/
def CriteriaCommand.addCriteria (s : CriteriaCommand) (c : Criteria) : Option CriteriaCommand :=
  if s.commands.isEmpty && s.criteria.isSome then
    match s.criteria with
    | some cl =>
      match cl.addCriteria c with
      | some cl' =>
        (popRBracket s.rep).map fun r =>
          { rep := r ++ " {criteria}]", criteria := some cl', commands := s.commands }
      | none => none
    | none => none
  else
    match s.criteria with
    | some cl =>
      match cl.addCriteria c with
      | some cl' =>
        some { rep := appendCmds cl'.rep s.commands, criteria := some cl', commands := s.commands }
      | none => none
    | none =>
      let cl := CriteriaList.new c
      some { rep := appendCmds cl.rep s.commands, criteria := some cl, commands := s.commands }

/-- The `Command` enum.  The source's third variant
`Criterialess(Box<CriterialessCommand>)` is not embedded: its rendering
depends on floating-point formatting (`Opacity`, font sizes) and on hash-map
iteration order (font variations), and no claim concerns it; the command-list
machinery treats each entry only through its render. -/
inductive Command : Type
  | criteria (c : CriteriaCommand)
  | raw (s : String)

/-- Display of `Command`: both variants forward to their field's display —
the cached string of the unit, or the raw text itself. -/
def Command.render : Command → String
  | .criteria c => c.rep
  | .raw s => s

/-- `CommandList`: ordered commands plus cached `;`-joined rendering. -/
structure CommandList : Type where
  rep : String
  commands : List Command

/-- `CommandList::default()`. -/
def CommandList.default : CommandList :=
  { rep := "", commands := [] }

/-- `CommandList::command`: push `';'` if an entry is already present, then
push the new command's render, then record it. -/
def CommandList.command (l : CommandList) (c : Command) : CommandList :=
  { rep := (if l.commands.isEmpty then l.rep else l.rep ++ ";") ++ c.render
    commands := l.commands ++ [c] }

/-! ## Builder driving folds (chained method calls on a builder) -/

/-- Appending a list of criteria one at a time (chained `.criteria(…)` calls);
`none` as soon as one append would panic. -/
def addCriteriaFold (s : CriteriaCommand) : List Criteria → Option CriteriaCommand
  | [] => some s
  | c :: rest =>
    match s.addCriteria c with
    | some s' => addCriteriaFold s' rest
    | none => none

/-- Appending a list of sub-commands one at a time (chained `.command(…)`
calls). -/
def commandFold (s : CriteriaCommand) : List SubCommand → CriteriaCommand
  | [] => s
  | c :: rest => commandFold (s.command c) rest

/-- Appending a list of commands one at a time to a command list. -/
def commandListFold (l : CommandList) : List Command → CommandList
  | [] => l
  | c :: rest => commandListFold (l.command c) rest

/-! ## Canonical (specification-side) renders, written after the spec's
render grammar, for comparison with the cached strings. -/

/-- Canonical render of a criteria group: space-joined criterion renders in
brackets. -/
def criteriaListRender (cs : List Criteria) : String :=
  "[" ++ joinSep " " (cs.map Criteria.render) ++ "]"

/-- Canonical render of a sub-command sequence: comma-joined renders. -/
def subCommandsRender (ss : List SubCommand) : String :=
  joinSep "," (ss.map SubCommand.render)

/-- Canonical render of a command list: semicolon-joined renders. -/
def commandListRender (es : List Command) : String :=
  joinSep ";" (es.map Command.render)

/-- Canonical render of a targeted command unit after the spec's render
grammar: bracketed criteria prefix (if a group exists) followed by the
comma-joined sub-command renders. -/
def criteriaCommandRender (s : CriteriaCommand) : String :=
  (match s.criteria with
    | some cl => criteriaListRender cl.criteria
    | none => "") ++ subCommandsRender s.commands

/-- Text the patch paths actually add for each criterion after the first:
the literal ` {criteria}` fragment, once per appended criterion. -/
def tagsFor : List Criteria → String
  | [] => ""
  | _ :: rest => " {criteria}" ++ tagsFor rest

/-- Canonical tokens of the set modifier flags, in the fixed order mod1,
mod2, mod3, mod4, shift, control. -/
def modifierTokens (m : Modifiers) : List String :=
  (if m.mod1 then ["Mod1+"] else []) ++ (if m.mod2 then ["Mod2+"] else [])
    ++ (if m.mod3 then ["Mod3+"] else []) ++ (if m.mod4 then ["Mod4+"] else [])
    ++ (if m.shift then ["Shift+"] else []) ++ (if m.control then ["Control+"] else [])

/-- Building a unit on a fresh builder: all criteria first, then all
sub-commands. -/
def buildCriteriaThenCommands (cs : List Criteria) (ss : List SubCommand) :
    Option CriteriaCommand :=
  (addCriteriaFold CriteriaCommand.default cs).map (fun s => commandFold s ss)

/-- Building a unit on a fresh builder: all sub-commands first, then the
same criteria. -/
def buildCommandsThenCriteria (cs : List Criteria) (ss : List SubCommand) :
    Option CriteriaCommand :=
  addCriteriaFold (commandFold CriteriaCommand.default ss) cs

/-- Criteria lists reachable through the public interface: created by `new`,
grown by the `criteria` method. -/
inductive ReachableCL : CriteriaList → Prop
  | new (c : Criteria) : ReachableCL (CriteriaList.new c)
  | add (l : CriteriaList) (c : Criteria) (l' : CriteriaList) :
      ReachableCL l → l.addCriteria c = some l' → ReachableCL l'

/-- Command units reachable through the public interface: `default`, the
`From<SubCommand>` conversion, and the two append methods. -/
inductive ReachableCC : CriteriaCommand → Prop
  | default : ReachableCC CriteriaCommand.default
  | ofSub (c : SubCommand) : ReachableCC (CriteriaCommand.ofSubCommand c)
  | command (s : CriteriaCommand) (c : SubCommand) :
      ReachableCC s → ReachableCC (s.command c)
  | addCriteria (s : CriteriaCommand) (c : Criteria) (s' : CriteriaCommand) :
      ReachableCC s → s.addCriteria c = some s' → ReachableCC s'

/-- Structural invariant of a command unit that makes both criterion-append
paths total: any present criteria group has a cached string ending in `']'`,
and while no sub-command has been appended the unit's cached string is
exactly the group's cached string. -/
def ccInvariant (s : CriteriaCommand) : Prop :=
  ∀ cl, s.criteria = some cl →
    (∃ t, cl.rep = t ++ "]") ∧ (s.commands = [] → s.rep = cl.rep)

/-! ## Basic lemmas about the string helpers -/

/-- The literal pushed by the patch paths splits off its closing bracket. -/
theorem tagSplit : (" {criteria}]" : String) = " {criteria}" ++ "]" := rfl

/-- Popping the asserted `']'` from a string that ends in it. -/
theorem popRBracket_concat (t : String) : popRBracket (t ++ "]") = some t := by
  obtain ⟨l⟩ := t
  show popRBracket ⟨l ++ [']']⟩ = some ⟨l⟩
  simp [popRBracket, List.getLast?_concat, List.dropLast_concat]

/-- Folding the comma-append over sub-commands is appending a `tailJoin`. -/
theorem foldl_comma (l : List SubCommand) :
    ∀ a : String, l.foldl (fun acc cc => acc ++ "," ++ cc.render) a
      = a ++ tailJoin "," (l.map SubCommand.render) := by
  induction l with
  | nil => intro a; simp [tailJoin, String.append_empty]
  | cons c rest ih =>
    intro a
    rw [List.foldl_cons, ih]
    simp [tailJoin, String.append_assoc]

/-- `appendCmds` is appending the canonical comma-join. -/
theorem appendCmds_eq (base : String) (ss : List SubCommand) :
    appendCmds base ss = base ++ subCommandsRender ss := by
  cases ss with
  | nil => simp [appendCmds, subCommandsRender, joinSep, String.append_empty]
  | cons c rest =>
    rw [appendCmds, foldl_comma]
    simp [subCommandsRender, joinSep, String.append_assoc]

/-! ## Behaviour of the builder folds -/

/-- Criterion appends on a unit in patch state (no sub-commands, group
present, cached string equal to the group's and ending in `']'`): each append
adds the literal ` {criteria}` before the closing bracket, in lockstep on the
unit's and the group's cached strings. -/
theorem addCriteriaFold_patch (rest : List Criteria) :
    ∀ (t : String) (cs0 : List Criteria),
      addCriteriaFold ⟨t ++ "]", some ⟨t ++ "]", cs0⟩, []⟩ rest
        = some ⟨t ++ (tagsFor rest ++ "]"),
                some ⟨t ++ (tagsFor rest ++ "]"), cs0 ++ rest⟩, []⟩ := by
  induction rest with
  | nil =>
    intro t cs0
    simp [addCriteriaFold, tagsFor, String.empty_append]
  | cons c rest ih =>
    intro t cs0
    have e : ∀ u : String, u ++ " {criteria}]" = (u ++ " {criteria}") ++ "]" := by
      intro u
      rw [tagSplit, ← String.append_assoc]
    have step : CriteriaCommand.addCriteria ⟨t ++ "]", some ⟨t ++ "]", cs0⟩, []⟩ c
        = some ⟨t ++ " {criteria}]", some ⟨t ++ " {criteria}]", cs0 ++ [c]⟩, []⟩ := by
      simp [CriteriaCommand.addCriteria, CriteriaList.addCriteria, popRBracket_concat]
    simp only [addCriteriaFold, step, e]
    rw [ih]
    simp [tagsFor, String.append_assoc, List.append_assoc]

/-- Criterion appends on the fresh builder: the first creates the group, the
rest take the patch path. -/
theorem addCriteriaFold_default (c : Criteria) (rest : List Criteria) :
    addCriteriaFold CriteriaCommand.default (c :: rest)
      = some ⟨("[" ++ c.render) ++ (tagsFor rest ++ "]"),
              some ⟨("[" ++ c.render) ++ (tagsFor rest ++ "]"), c :: rest⟩, []⟩ := by
  have h1 : CriteriaCommand.addCriteria CriteriaCommand.default c
      = some ⟨("[" ++ c.render) ++ "]", some ⟨("[" ++ c.render) ++ "]", [c]⟩, []⟩ := by
    simp [CriteriaCommand.addCriteria, CriteriaCommand.default, CriteriaList.new, appendCmds]
  simp only [addCriteriaFold, h1, addCriteriaFold_patch]
  simp

/-- Sub-command appends on a unit that already has a sub-command: pure
comma-separated accumulation on the cached string. -/
theorem commandFold_nonempty (ss : List SubCommand) :
    ∀ (s : CriteriaCommand), s.commands ≠ [] →
      commandFold s ss
        = ⟨s.rep ++ tailJoin "," (ss.map SubCommand.render), s.criteria,
           s.commands ++ ss⟩ := by
  induction ss with
  | nil =>
    intro s _
    simp [commandFold, tailJoin, String.append_empty]
  | cons c rest ih =>
    intro s h
    have hne : s.commands.isEmpty = false := by
      cases hc : s.commands with
      | nil => exact absurd hc h
      | cons a l => rfl
    rw [commandFold, ih (s.command c) (by simp [CriteriaCommand.command])]
    simp [CriteriaCommand.command, hne, tailJoin, String.append_assoc, List.append_assoc]

/-- Sub-command appends on a unit with no sub-commands yet: the result is the
old cached string (criteria prefix, if any) followed by the comma-join of the
appended renders. -/
theorem commandFold_empty (ss : List SubCommand) (r : String) (crit : Option CriteriaList) :
    commandFold ⟨r, crit, []⟩ ss = ⟨r ++ subCommandsRender ss, crit, ss⟩ := by
  cases ss with
  | nil => simp [commandFold, subCommandsRender, joinSep, String.append_empty]
  | cons c rest =>
    have h1 : CriteriaCommand.command ⟨r, crit, []⟩ c = ⟨r ++ c.render, crit, [c]⟩ := by
      simp [CriteriaCommand.command]
    rw [commandFold, h1, commandFold_nonempty rest _ (by simp)]
    simp [subCommandsRender, joinSep, String.append_assoc]

/-- First criterion appended to a unit that already has sub-commands but no
group yet: the group is created and the cached string rebuilt. -/
theorem addCriteria_commands_noGroup (r0 : String) (c : Criteria) (s0 : SubCommand)
    (ss : List SubCommand) :
    CriteriaCommand.addCriteria ⟨r0, none, s0 :: ss⟩ c
      = some ⟨appendCmds (("[" ++ c.render) ++ "]") (s0 :: ss),
              some ⟨("[" ++ c.render) ++ "]", [c]⟩, s0 :: ss⟩ := by
  simp [CriteriaCommand.addCriteria, CriteriaList.new]

/-- Criterion appends on a unit that has sub-commands and a group: each
append extends the group's cached string by the literal ` {criteria}` and
rebuilds the unit's cached string from it. -/
theorem addCriteriaFold_rebuild (rest : List Criteria) :
    ∀ (t r0 : String) (cs0 : List Criteria) (s0 : SubCommand) (ss : List SubCommand),
      r0 = appendCmds (t ++ "]") (s0 :: ss) →
      addCriteriaFold ⟨r0, some ⟨t ++ "]", cs0⟩, s0 :: ss⟩ rest
        = some ⟨appendCmds (t ++ (tagsFor rest ++ "]")) (s0 :: ss),
                some ⟨t ++ (tagsFor rest ++ "]"), cs0 ++ rest⟩, s0 :: ss⟩ := by
  induction rest with
  | nil =>
    intro t r0 cs0 s0 ss hr
    simp [addCriteriaFold, tagsFor, String.empty_append, hr]
  | cons c rest ih =>
    intro t r0 cs0 s0 ss hr
    have e : ∀ u : String, u ++ " {criteria}]" = (u ++ " {criteria}") ++ "]" := by
      intro u
      rw [tagSplit, ← String.append_assoc]
    have step : CriteriaCommand.addCriteria ⟨r0, some ⟨t ++ "]", cs0⟩, s0 :: ss⟩ c
        = some ⟨appendCmds (t ++ " {criteria}]") (s0 :: ss),
                some ⟨t ++ " {criteria}]", cs0 ++ [c]⟩, s0 :: ss⟩ := by
      simp [CriteriaCommand.addCriteria, CriteriaList.addCriteria, popRBracket_concat]
    simp only [addCriteriaFold, step, e]
    rw [ih (t ++ " {criteria}") _ (cs0 ++ [c]) s0 ss rfl]
    simp [tagsFor, String.append_assoc, List.append_assoc]

/-! ## Settling the claims -/

/-- Claim C1 is false of the code: appending a second criterion to a unit
that still has no sub-commands takes the in-place patch path, which pops the
trailing `']'` but then pushes the *literal text* ` {criteria}]` (the
`push_str` argument is a plain string literal, not a `format!`), so the
cached string is `[floating {criteria}]` instead of the claimed
`"[" ++ render c1 ++ " " ++ render c2 ++ "]"`. -/
theorem c1_patch_path_pushes_literal :
    (addCriteriaFold CriteriaCommand.default [Criteria.floating, Criteria.tiling]).map
        CriteriaCommand.rep = some "[floating {criteria}]"
      ∧ "[floating {criteria}]"
          ≠ "[" ++ Criteria.floating.render ++ " " ++ Criteria.tiling.render ++ "]" := by
  constructor
  · rfl
  · decide

/-- Claim C2 is false of the code: after `CriteriaList::new(Floating)` and one
further `criteria(Tiling)` call, the cached string is
`[floating {criteria}]` while the canonical re-render of the structured
sequence is `[floating tiling]`. -/
theorem c2_cached_string_diverges :
    ((CriteriaList.new Criteria.floating).addCriteria Criteria.tiling).map
        CriteriaList.rep = some "[floating {criteria}]"
      ∧ ((CriteriaList.new Criteria.floating).addCriteria Criteria.tiling).map
          (fun l => criteriaListRender l.criteria) = some "[floating tiling]"
      ∧ ("[floating {criteria}]" : String) ≠ "[floating tiling]" := by
  refine ⟨rfl, rfl, ?_⟩
  decide

/-- Claim C4 is false of the code: the color display attribute uses `{:X}`
without a width, which is *unpadded* uppercase hex, so red=255, green=0,
blue=16 renders as `#FF010` (five digits), not the claimed `#FF0010`, and
with alpha=1 as `#FF0101`, not `#FF001001`. -/
theorem c4_color_hex_unpadded :
    Color.render ⟨255, 0, 16, none⟩ = "#FF010"
      ∧ Color.render ⟨255, 0, 16, some 1⟩ = "#FF0101"
      ∧ ("#FF010" : String) ≠ "#FF0010"
      ∧ ("#FF0101" : String) ≠ "#FF001001" := by
  refine ⟨rfl, rfl, by decide, by decide⟩

/-- Claim C5 is false of the code at each of its three cited variants:
`RenameWorkspace` has format `rename workspace {_0} to {_0}` (old name
printed twice, new name never), `Move::Position` has `position {_0} {_0}`
(first length twice, second never), and `Workspace::Name` has the brace-less
format `_0`, printing the literal text `_0` instead of the stored name. -/
theorem c5_positional_variants_drop_arguments :
    (SubCommand.renameWorkspace "old" "new").render = "rename workspace old to old"
      ∧ (SubCommand.renameWorkspace "old" "new").render ≠ "rename workspace old to new"
      ∧ (SubCommand.move (Move.position (Length.px 1) (Length.ppt 2))).render
          = "move position 1 px 1 px"
      ∧ (SubCommand.move (Move.position (Length.px 1) (Length.ppt 2))).render
          ≠ "move position 1 px 2 ppt"
      ∧ (SubCommand.move (Move.workspace (Workspace.name (WorkspaceName.simple "web")))).render
          = "move container to workspace _0"
      ∧ (SubCommand.move (Move.workspace (Workspace.name (WorkspaceName.simple "web")))).render
          ≠ "move container to workspace web" := by
  refine ⟨rfl, by decide, rfl, by decide, rfl, by decide⟩

/-- Claim C3 holds of the code: for every list of criteria and every list of
sub-commands, appending all criteria and then all sub-commands to a fresh
builder yields the same final rendered text as appending the sub-commands
first and then the same criteria in the same order (the in-place patch path
and the rebuild path corrupt the criteria prefix in exactly the same way, so
the two orders still agree). -/
theorem c3_append_order_equivalence (cs : List Criteria) (ss : List SubCommand) :
    (buildCriteriaThenCommands cs ss).map CriteriaCommand.rep
      = (buildCommandsThenCriteria cs ss).map CriteriaCommand.rep := by
  cases cs with
  | nil =>
    simp [buildCriteriaThenCommands, buildCommandsThenCriteria, addCriteriaFold]
  | cons c rest =>
    cases ss with
    | nil =>
      rw [buildCriteriaThenCommands, addCriteriaFold_default, buildCommandsThenCriteria]
      rw [show commandFold CriteriaCommand.default [] = CriteriaCommand.default from rfl,
        addCriteriaFold_default]
      simp [commandFold]
    | cons s0 ss' =>
      have hB : buildCommandsThenCriteria (c :: rest) (s0 :: ss')
          = some ⟨appendCmds (("[" ++ c.render) ++ (tagsFor rest ++ "]")) (s0 :: ss'),
                  some ⟨("[" ++ c.render) ++ (tagsFor rest ++ "]"), [c] ++ rest⟩,
                  s0 :: ss'⟩ := by
        rw [buildCommandsThenCriteria,
          show CriteriaCommand.default = (⟨"", none, []⟩ : CriteriaCommand) from rfl,
          commandFold_empty]
        simp only [addCriteriaFold]
        rw [addCriteria_commands_noGroup]
        exact addCriteriaFold_rebuild rest ("[" ++ c.render) _ [c] s0 ss' rfl
      rw [buildCriteriaThenCommands, addCriteriaFold_default, hB]
      simp [commandFold_empty, appendCmds_eq]

/-- Claim C6 holds of the code: appending any sequence of sub-commands to a
fresh unit with no criteria leaves the cached string equal to the comma-join
of the individual renders, in append order. -/
theorem c6_append_order_preservation (ss : List SubCommand) :
    (commandFold CriteriaCommand.default ss).rep = subCommandsRender ss := by
  rw [show CriteriaCommand.default = (⟨"", none, []⟩ : CriteriaCommand) from rfl,
    commandFold_empty]
  exact String.empty_append _

/-- Claim C7 holds of the code: the modifier composite with only mod4 and
shift set renders as exactly `Mod4+Shift+`; no flag set renders as the empty
string; and in general the render is the separator-less concatenation of the
set flags' canonical tokens in the fixed order mod1, mod2, mod3, mod4, shift,
control. -/
theorem c7_modifier_rendering :
    Modifiers.render ⟨false, false, false, true, true, false⟩ = "Mod4+Shift+"
      ∧ Modifiers.render Modifiers.default = ""
      ∧ ∀ m : Modifiers, m.render = String.join (modifierTokens m) := by
  refine ⟨rfl, rfl, ?_⟩
  rintro ⟨m1, m2, m3, m4, s, c⟩
  cases m1 <;> cases m2 <;> cases m3 <;> cases m4 <;> cases s <;> cases c <;> rfl

/-- Command appends on a list that already has an entry: pure
semicolon-separated accumulation. -/
theorem commandListFold_nonempty (es : List Command) :
    ∀ (l : CommandList), l.commands ≠ [] →
      commandListFold l es
        = ⟨l.rep ++ tailJoin ";" (es.map Command.render), l.commands ++ es⟩ := by
  induction es with
  | nil =>
    intro l _
    simp [commandListFold, tailJoin, String.append_empty]
  | cons c rest ih =>
    intro l h
    have hne : l.commands.isEmpty = false := by
      cases hc : l.commands with
      | nil => exact absurd hc h
      | cons a t => rfl
    rw [commandListFold, ih (l.command c) (by simp [CommandList.command])]
    simp [CommandList.command, hne, tailJoin, String.append_assoc, List.append_assoc]

/-- Command appends starting from a list with no entries. -/
theorem commandListFold_empty (es : List Command) (r : String) :
    commandListFold ⟨r, []⟩ es = ⟨r ++ commandListRender es, es⟩ := by
  cases es with
  | nil => simp [commandListFold, commandListRender, joinSep, String.append_empty]
  | cons c rest =>
    have h1 : CommandList.command ⟨r, []⟩ c = ⟨r ++ c.render, [c]⟩ := by
      simp [CommandList.command]
    rw [commandListFold, h1, commandListFold_nonempty rest _ (by simp)]
    simp [commandListRender, joinSep, String.append_assoc]

/-- Claim C8 holds of the code: a command list's cached string is the
semicolon-join of its entries' renders in append order, a raw entry renders
as exactly its stored text, and the concrete example list renders as
`workspace 5;border none;[floating]floating disable`. -/
theorem c8_list_level_joining :
    (∀ es : List Command, (commandListFold CommandList.default es).rep = commandListRender es)
      ∧ (∀ s : String, (Command.raw s).render = s)
      ∧ ((CriteriaCommand.default.addCriteria Criteria.floating).map
          (fun u => (commandListFold CommandList.default
            [Command.raw "workspace 5",
             Command.criteria (CriteriaCommand.ofSubCommand (SubCommand.border Border.none)),
             Command.criteria (u.command (SubCommand.floating EnDisTog.disable))]).rep))
        = some "workspace 5;border none;[floating]floating disable" := by
  refine ⟨?_, fun s => rfl, by rfl⟩
  intro es
  rw [show CommandList.default = (⟨"", []⟩ : CommandList) from rfl, commandListFold_empty]
  exact String.empty_append _

/-- Claim C10 holds of the code: appending a sub-command leaves the criteria
group untouched, extends the sub-command sequence by exactly that one element
at the end, and only ever extends the cached string (the old cached string
stays as a prefix). -/
theorem c10_command_frame (s : CriteriaCommand) (c : SubCommand) :
    (s.command c).criteria = s.criteria
      ∧ (s.command c).commands = s.commands ++ [c]
      ∧ ∃ t, (s.command c).rep = s.rep ++ t := by
  refine ⟨rfl, rfl, ?_⟩
  cases h : s.commands.isEmpty with
  | true => exact ⟨c.render, by simp [CriteriaCommand.command, h]⟩
  | false => exact ⟨"," ++ c.render, by simp [CriteriaCommand.command, h, String.append_assoc]⟩

/-- Every successful criteria-group append leaves the group's cached string
ending in `']'`. -/
theorem cl_addCriteria_rep (l : CriteriaList) (c : Criteria) (l' : CriteriaList)
    (h : l.addCriteria c = some l') : ∃ t, l'.rep = t ++ "]" := by
  unfold CriteriaList.addCriteria at h
  cases hp : popRBracket l.rep with
  | none => rw [hp] at h; simp at h
  | some r =>
    rw [hp] at h
    simp only [Option.map] at h
    injection h with h
    refine ⟨r ++ " {criteria}", ?_⟩
    rw [← h, tagSplit, String.append_assoc]

/-- Every reachable criteria group has a cached string ending in `']'` (this
is exactly the property the `assert_eq!` in `CriteriaList::criteria`
checks). -/
theorem reachableCL_rep (l : CriteriaList) (h : ReachableCL l) : ∃ t, l.rep = t ++ "]" := by
  induction h with
  | new c => exact ⟨"[" ++ c.render, rfl⟩
  | add l c l' _ hstep _ => exact cl_addCriteria_rep l c l' hstep

/-- A group append succeeds whenever the cached string ends in `']'`. -/
theorem cl_addCriteria_isSome (l : CriteriaList) (c : Criteria)
    (h : ∃ t, l.rep = t ++ "]") : (l.addCriteria c).isSome = true := by
  obtain ⟨t, ht⟩ := h
  unfold CriteriaList.addCriteria
  rw [ht, popRBracket_concat]
  rfl

/-- First criterion appended to a unit with neither group nor sub-commands:
group created, cached string set to its bracketed render. -/
theorem addCriteria_none_empty (r0 : String) (c : Criteria) :
    CriteriaCommand.addCriteria ⟨r0, none, []⟩ c
      = some ⟨("[" ++ c.render) ++ "]", some ⟨("[" ++ c.render) ++ "]", [c]⟩, []⟩ := by
  simp [CriteriaCommand.addCriteria, CriteriaList.new, appendCmds]

/-- One patch-path criterion append (group present, no sub-commands, cached
string equal to the group's). -/
theorem addCriteria_patch (t : String) (cs0 : List Criteria) (c : Criteria) :
    CriteriaCommand.addCriteria ⟨t ++ "]", some ⟨t ++ "]", cs0⟩, []⟩ c
      = some ⟨t ++ " {criteria}]", some ⟨t ++ " {criteria}]", cs0 ++ [c]⟩, []⟩ := by
  simp [CriteriaCommand.addCriteria, CriteriaList.addCriteria, popRBracket_concat]

/-- One rebuild-path criterion append (group and sub-commands both
present). -/
theorem addCriteria_rebuild_step (r0 t : String) (cs0 : List Criteria) (c : Criteria)
    (s0 : SubCommand) (ss : List SubCommand) :
    CriteriaCommand.addCriteria ⟨r0, some ⟨t ++ "]", cs0⟩, s0 :: ss⟩ c
      = some ⟨appendCmds (t ++ " {criteria}]") (s0 :: ss),
              some ⟨t ++ " {criteria}]", cs0 ++ [c]⟩, s0 :: ss⟩ := by
  simp [CriteriaCommand.addCriteria, CriteriaList.addCriteria, popRBracket_concat]

/-- Every reachable command unit satisfies the structural invariant. -/
theorem ccInvariant_of_reachable (s : CriteriaCommand) (h : ReachableCC s) :
    ccInvariant s := by
  induction h with
  | default =>
    intro cl hcl
    exact absurd hcl (by simp [CriteriaCommand.default])
  | ofSub c =>
    intro cl hcl
    exact absurd hcl (by simp [CriteriaCommand.ofSubCommand])
  | command s c _ ih =>
    intro cl hcl
    refine ⟨(ih cl hcl).1, fun hcmds => ?_⟩
    exact absurd hcmds (by simp [CriteriaCommand.command])
  | addCriteria s c s' hs hstep ih =>
    obtain ⟨r, crit, cmds⟩ := s
    cases crit with
    | none =>
      cases cmds with
      | nil =>
        rw [addCriteria_none_empty] at hstep
        injection hstep with hstep
        subst hstep
        intro cl' hcl'
        injection hcl' with hcl'
        subst hcl'
        exact ⟨⟨"[" ++ c.render, rfl⟩, fun _ => rfl⟩
      | cons c0 cs =>
        rw [addCriteria_commands_noGroup] at hstep
        injection hstep with hstep
        subst hstep
        intro cl' hcl'
        injection hcl' with hcl'
        subst hcl'
        exact ⟨⟨"[" ++ c.render, rfl⟩, fun hc => absurd hc (List.cons_ne_nil c0 cs)⟩
    | some cl0 =>
      obtain ⟨clrep, clcrit⟩ := cl0
      obtain ⟨⟨t, ht⟩, hrep⟩ := ih ⟨clrep, clcrit⟩ rfl
      have ht' : clrep = t ++ "]" := ht
      subst ht'
      cases cmds with
      | nil =>
        have hr : r = t ++ "]" := hrep rfl
        subst hr
        rw [addCriteria_patch] at hstep
        injection hstep with hstep
        subst hstep
        intro cl' hcl'
        injection hcl' with hcl'
        subst hcl'
        refine ⟨⟨t ++ " {criteria}", ?_⟩, fun _ => rfl⟩
        rw [tagSplit, String.append_assoc]
      | cons c0 cs =>
        rw [addCriteria_rebuild_step] at hstep
        injection hstep with hstep
        subst hstep
        intro cl' hcl'
        injection hcl' with hcl'
        subst hcl'
        refine ⟨⟨t ++ " {criteria}", ?_⟩, fun hc => absurd hc (List.cons_ne_nil c0 cs)⟩
        rw [tagSplit, String.append_assoc]

/-- The unit-level criterion append succeeds whenever the invariant holds. -/
theorem cc_addCriteria_isSome (s : CriteriaCommand) (c : Criteria)
    (hinv : ccInvariant s) : (s.addCriteria c).isSome = true := by
  obtain ⟨r, crit, cmds⟩ := s
  cases crit with
  | none =>
    cases cmds with
    | nil => rw [addCriteria_none_empty]; rfl
    | cons c0 cs => rw [addCriteria_commands_noGroup]; rfl
  | some cl0 =>
    obtain ⟨clrep, clcrit⟩ := cl0
    obtain ⟨⟨t, ht⟩, hrep⟩ := hinv ⟨clrep, clcrit⟩ rfl
    have ht' : clrep = t ++ "]" := ht
    subst ht'
    cases cmds with
    | nil =>
      have hr : r = t ++ "]" := hrep rfl
      subst hr
      rw [addCriteria_patch]
      rfl
    | cons c0 cs =>
      rw [addCriteria_rebuild_step]
      rfl

/-- Claim C9 holds of the code: both criterion-append operations (the only
fallible ones — every other builder operation and every render is a total
function by construction) succeed on every state reachable through the
public interface; in particular the `assert_eq!(rep.pop(), Some(']'))` in
the two patch paths never fails. -/
theorem c9_builder_operations_total :
    (∀ (l : CriteriaList) (c : Criteria), ReachableCL l → (l.addCriteria c).isSome = true)
      ∧ (∀ (s : CriteriaCommand) (c : Criteria), ReachableCC s →
          (s.addCriteria c).isSome = true) := by
  constructor
  · intro l c hl
    exact cl_addCriteria_isSome l c (reachableCL_rep l hl)
  · intro s c hs
    exact cc_addCriteria_isSome s c (ccInvariant_of_reachable s hs)

/-- Witness for C9 at concrete reachable states. -/
theorem c9_builder_operations_total_witness :
    ((CriteriaList.new Criteria.floating).addCriteria Criteria.tiling).isSome = true
      ∧ (CriteriaCommand.default.addCriteria Criteria.floating).isSome = true :=
  ⟨c9_builder_operations_total.1 (CriteriaList.new Criteria.floating) Criteria.tiling
      (ReachableCL.new Criteria.floating),
   c9_builder_operations_total.2 CriteriaCommand.default Criteria.floating
      ReachableCC.default⟩

/-- Witness for C3 at a concrete pair of lists. -/
theorem c3_append_order_equivalence_witness :
    (buildCriteriaThenCommands [Criteria.floating, Criteria.tiling] [SubCommand.exit]).map
        CriteriaCommand.rep
      = (buildCommandsThenCriteria [Criteria.floating, Criteria.tiling] [SubCommand.exit]).map
        CriteriaCommand.rep :=
  c3_append_order_equivalence [Criteria.floating, Criteria.tiling] [SubCommand.exit]

/-- Witness for C6 at a concrete sub-command sequence. -/
theorem c6_append_order_preservation_witness :
    (commandFold CriteriaCommand.default
        [SubCommand.exit, SubCommand.reload, SubCommand.scratchpadShow]).rep
      = subCommandsRender [SubCommand.exit, SubCommand.reload, SubCommand.scratchpadShow] :=
  c6_append_order_preservation [SubCommand.exit, SubCommand.reload, SubCommand.scratchpadShow]

/-- Witness for C7 at a concrete flag assignment. -/
theorem c7_modifier_rendering_witness :
    Modifiers.render ⟨true, false, true, false, false, true⟩
      = String.join (modifierTokens ⟨true, false, true, false, false, true⟩) :=
  c7_modifier_rendering.2.2 ⟨true, false, true, false, false, true⟩

/-- Witness for C8 at a concrete entry list. -/
theorem c8_list_level_joining_witness :
    (commandListFold CommandList.default
        [Command.raw "workspace 5", Command.raw "reload"]).rep
      = commandListRender [Command.raw "workspace 5", Command.raw "reload"] :=
  c8_list_level_joining.1 [Command.raw "workspace 5", Command.raw "reload"]

/-- Witness for C10 at a concrete unit and sub-command. -/
theorem c10_command_frame_witness :
    ((CriteriaCommand.ofSubCommand SubCommand.exit).command SubCommand.reload).criteria
        = (CriteriaCommand.ofSubCommand SubCommand.exit).criteria
      ∧ ((CriteriaCommand.ofSubCommand SubCommand.exit).command SubCommand.reload).commands
        = (CriteriaCommand.ofSubCommand SubCommand.exit).commands ++ [SubCommand.reload]
      ∧ ∃ t, ((CriteriaCommand.ofSubCommand SubCommand.exit).command SubCommand.reload).rep
        = (CriteriaCommand.ofSubCommand SubCommand.exit).rep ++ t :=
  c10_command_frame (CriteriaCommand.ofSubCommand SubCommand.exit) SubCommand.reload

end SwayCommand
